import Mathlib

/-!
Verification of the GifSwap Batch Swap Orchestrator and its satellite
components, shallowly embedded from the TypeScript sources:

* `src/frontend/src/App.tsx` — `processAllGifSwaps`,
  `processAllGifSwapsWithIndividualFaces`, `pollPredictionStatus`,
  `handleGifSelect`, `handleReset`;
* `src/backend/src/routes/swap.ts` — `POST /api/swap` validation and error
  classification;
* `src/backend/src/routes/optimize.ts` — `POST /api/optimize-gif`;
* the frontend error-classifier module — `parseError`,
  `getErrorTypeFromStatus`;
* the result-display component — `handleCopyToClipboard`.

Remote calls are modelled by oracles (a list or stream of outcomes supplied
as a parameter); the state updated by the React `setState` calls is carried
explicitly.
-/

namespace GifSwap

/-! ## Batch orchestrator (`App.tsx`)

`processGifSwap` either resolves with the output URL of the face swap or
rejects with an error message; one `SwapOutcome` per pair is the oracle for
the per-pair remote work (submission plus polling). -/

abbrev SwapOutcome := Except String String

/-- The slice of React state written by the orchestrator loop:
`resultGifUrls : (string | null)[]` (`none` = pending placeholder,
`some ""` = the failure marker written in the `catch` branch, any other
`some url` = success) and `completedCount`. -/
structure OrchState where
  resultGifUrls : List (Option String)
  completedCount : Nat
deriving Repr, DecidableEq

/-- State set up before the loop: `new Array(n).fill(null)` and
`setCompletedCount(0)`. -/
def initState (n : Nat) : OrchState :=
  { resultGifUrls := List.replicate n none, completedCount := 0 }

/-- One iteration of the `for` loop of `processAllGifSwaps` at index `i`:
on success the slot `i` is set to the result URL and
`setCompletedCount(i + 1)` runs; in the `catch` branch the slot is set to
`''` and `completedCount` is left untouched. -/
def orchStep (i : Nat) (out : SwapOutcome) (st : OrchState) : OrchState :=
  match out with
  | Except.ok url =>
      { resultGifUrls := st.resultGifUrls.set i (some url), completedCount := i + 1 }
  | Except.error _ =>
      { resultGifUrls := st.resultGifUrls.set i (some ""), completedCount := st.completedCount }

/-- The value written into slot `i` by the iteration that processed outcome
`out`: the URL on success, the `''` failure marker otherwise. -/
def slotVal (out : SwapOutcome) : String :=
  match out with
  | Except.ok url => url
  | Except.error _ => ""

/-- Trace of orchestrator states: the state before each iteration starting
at index `i`, followed by the state after the last iteration. -/
def orchStates : Nat → List SwapOutcome → OrchState → List OrchState
  | _, [], st => [st]
  | i, out :: rest, st => st :: orchStates (i + 1) rest (orchStep i out st)

/-- Final state of the loop (fold of `orchStep`). -/
def runBatch : Nat → List SwapOutcome → OrchState → OrchState
  | _, [], st => st
  | i, out :: rest, st => runBatch (i + 1) rest (orchStep i out st)

/-- `processAllGifSwaps` in single-face mode, as the trace of states it
publishes: one `SwapOutcome` per selected GIF. -/
def processAllGifSwaps (outs : List SwapOutcome) : List OrchState :=
  orchStates 0 outs (initState outs.length)

/-- The state after `processAllGifSwaps` finishes its loop. -/
def batchFinal (outs : List SwapOutcome) : OrchState :=
  runBatch 0 outs (initState outs.length)

/-- `faces[gifUrl]` followed by the `if (!faceData)` falsiness test of
`processAllGifSwapsWithIndividualFaces`: a missing key or an empty string
counts as "no face data". -/
def faceFor (faces : List (String × String)) (gifUrl : String) : Option String :=
  match faces.lookup gifUrl with
  | some f => if f = "" then none else some f
  | none => none

/-- Per-pair outcome in individual-faces mode: a pair without face data is
an immediate failure (the loop writes `''` and `continue`s, exactly the
`catch` behaviour); otherwise `processGifSwap(faceData, gifUrl)` runs,
modelled by the oracle `swap`. -/
def individualOutcome (swap : String → String → SwapOutcome)
    (faces : List (String × String)) (gifUrl : String) : SwapOutcome :=
  match faceFor faces gifUrl with
  | none => Except.error "No face data found for GIF"
  | some f => swap f gifUrl

/-- One iteration of the `processAllGifSwapsWithIndividualFaces` loop. -/
def orchStepInd (faces : List (String × String)) (swap : String → String → SwapOutcome)
    (i : Nat) (gifUrl : String) (st : OrchState) : OrchState :=
  match faceFor faces gifUrl with
  | none =>
      { resultGifUrls := st.resultGifUrls.set i (some ""), completedCount := st.completedCount }
  | some f => orchStep i (swap f gifUrl) st

/-- Trace of `processAllGifSwapsWithIndividualFaces` states from index `i`. -/
def orchStatesInd (faces : List (String × String)) (swap : String → String → SwapOutcome) :
    Nat → List String → OrchState → List OrchState
  | _, [], st => [st]
  | i, g :: rest, st => st :: orchStatesInd faces swap (i + 1) rest (orchStepInd faces swap i g st)

/-- `processAllGifSwapsWithIndividualFaces`, as the trace of states it
publishes over the selected GIF list. -/
def processAllGifSwapsWithIndividualFaces (faces : List (String × String))
    (swap : String → String → SwapOutcome) (gifs : List String) : List OrchState :=
  orchStatesInd faces swap 0 gifs (initState gifs.length)

/-- Final state of the individual-faces loop. -/
def batchFinalInd (faces : List (String × String)) (swap : String → String → SwapOutcome)
    (gifs : List String) : OrchState :=
  runBatch 0 (gifs.map (individualOutcome swap faces)) (initState gifs.length)

/-! ### Structural lemmas about the orchestrator loop -/

theorem orchStep_length (i : Nat) (out : SwapOutcome) (st : OrchState) :
    (orchStep i out st).resultGifUrls.length = st.resultGifUrls.length := by
  cases out <;> simp [orchStep]

theorem orchStep_get_ne (i : Nat) (out : SwapOutcome) (st : OrchState) (k : Nat)
    (hk : k ≠ i) : (orchStep i out st).resultGifUrls[k]? = st.resultGifUrls[k]? := by
  cases out <;> simp [orchStep, List.getElem?_set_ne (Ne.symm hk)]

theorem orchStep_get_self (i : Nat) (out : SwapOutcome) (st : OrchState)
    (hi : i < st.resultGifUrls.length) :
    (orchStep i out st).resultGifUrls[i]? = some (some (slotVal out)) := by
  cases out <;> simp [orchStep, slotVal, List.getElem?_set_self, hi]

theorem orchStatesInd_eq_map (faces : List (String × String))
    (swap : String → String → SwapOutcome) (gifs : List String) (i : Nat) (st : OrchState) :
    orchStatesInd faces swap i gifs st =
      orchStates i (gifs.map (individualOutcome swap faces)) st := by
  induction gifs generalizing i st with
  | nil => rfl
  | cons g rest ih =>
      simp only [orchStatesInd, List.map_cons, orchStates, ih]
      congr 1
      unfold orchStepInd individualOutcome
      cases faceFor faces g <;> simp [orchStep]

theorem orchStates_length (i : Nat) (outs : List SwapOutcome) (st : OrchState) :
    (orchStates i outs st).length = outs.length + 1 := by
  induction outs generalizing i st with
  | nil => rfl
  | cons out rest ih => simp [orchStates, ih]

theorem orchStates_mem_length (i : Nat) (outs : List SwapOutcome) (st : OrchState)
    (s : OrchState) (hs : s ∈ orchStates i outs st) :
    s.resultGifUrls.length = st.resultGifUrls.length := by
  induction outs generalizing i st with
  | nil => simp [orchStates] at hs; simp [hs]
  | cons out rest ih =>
      simp only [orchStates, List.mem_cons] at hs
      rcases hs with rfl | hs
      · rfl
      · rw [ih (i + 1) (orchStep i out st) hs, orchStep_length]


theorem runBatch_length (i : Nat) (outs : List SwapOutcome) (st : OrchState) :
    (runBatch i outs st).resultGifUrls.length = st.resultGifUrls.length := by
  induction outs generalizing i st with
  | nil => rfl
  | cons out rest ih => rw [runBatch, ih, orchStep_length]

theorem runBatch_get_lt (outs : List SwapOutcome) :
    ∀ (i : Nat) (st : OrchState) (k : Nat), k < i →
      (runBatch i outs st).resultGifUrls[k]? = st.resultGifUrls[k]? := by
  induction outs with
  | nil => intro i st k _; rfl
  | cons out rest ih =>
      intro i st k hk
      rw [runBatch, ih (i + 1) (orchStep i out st) k (Nat.lt_succ_of_lt hk),
        orchStep_get_ne i out st k (Nat.ne_of_lt hk)]

/-- Each slot of the final state in the processed range holds exactly the
value produced by its own pair. -/
theorem runBatch_get_processed (outs : List SwapOutcome) :
    ∀ (i : Nat) (st : OrchState), i + outs.length ≤ st.resultGifUrls.length →
      ∀ (k : Nat) (out : SwapOutcome), outs[k]? = some out →
        (runBatch i outs st).resultGifUrls[k + i]? = some (some (slotVal out)) := by
  induction outs with
  | nil => intro i st _ k out hout; simp at hout
  | cons out0 rest ih =>
      intro i st hlen k out hout
      have hlen' : (out0 :: rest).length = rest.length + 1 := rfl
      cases k with
      | zero =>
          simp only [List.getElem?_cons_zero, Option.some.injEq] at hout
          subst hout
          rw [runBatch, Nat.zero_add,
            runBatch_get_lt rest (i + 1) _ i (Nat.lt_succ_self i),
            orchStep_get_self]
          omega
      | succ k =>
          simp only [List.getElem?_cons_succ] at hout
          rw [runBatch]
          have := ih (i + 1) (orchStep i out0 st)
            (by rw [orchStep_length]; omega) k out hout
          rw [show k + 1 + i = k + (i + 1) by omega]
          exact this

/-- Each slot of any state in the trace is either still at its initial
value or holds the value produced by its own pair. -/
theorem orchStates_mem_get (outs : List SwapOutcome) :
    ∀ (i : Nat) (st : OrchState) (s : OrchState), s ∈ orchStates i outs st →
      ∀ k : Nat, s.resultGifUrls[k]? = st.resultGifUrls[k]? ∨
        ∃ out, i ≤ k ∧ outs[k - i]? = some out ∧
          s.resultGifUrls[k]? = some (some (slotVal out)) := by
  induction outs with
  | nil =>
      intro i st s hs k
      simp only [orchStates, List.mem_singleton] at hs
      exact Or.inl (by rw [hs])
  | cons out0 rest ih =>
      intro i st s hs k
      simp only [orchStates, List.mem_cons] at hs
      rcases hs with rfl | hs
      · exact Or.inl rfl
      · rcases ih (i + 1) (orchStep i out0 st) s hs k with h | ⟨out, hik, hout, hget⟩
        · rcases eq_or_ne k i with rfl | hki
          · by_cases hlt : k < st.resultGifUrls.length
            · refine Or.inr ⟨out0, Nat.le_refl k, ?_, ?_⟩
              · simp
              · rw [h, orchStep_get_self k out0 st hlt]
            · refine Or.inl ?_
              rw [h]
              cases out0 <;>
                simp [orchStep, List.getElem?_eq_none, Nat.le_of_not_lt hlt]
          · exact Or.inl (by rw [h, orchStep_get_ne i out0 st k hki])
        · refine Or.inr ⟨out, Nat.le_of_succ_le hik, ?_, hget⟩
          rw [show k - i = (k - (i + 1)) + 1 by omega]
          simpa using hout

/-- All slots from index `i` on are still the `null` placeholder: the loop
invariant on entry to iteration `i`. -/
def FreshFrom (i : Nat) (st : OrchState) : Prop :=
  ∀ k : Nat, i ≤ k → k < st.resultGifUrls.length → st.resultGifUrls[k]? = some none

/-- One observable update may only leave a slot unchanged or move it from
the `Pending` placeholder to a terminal value. -/
def slotStep (s t : OrchState) : Prop :=
  ∀ k : Nat, s.resultGifUrls[k]? = t.resultGifUrls[k]? ∨
    (s.resultGifUrls[k]? = some none ∧ ∃ url, t.resultGifUrls[k]? = some (some url))

theorem freshFrom_initState (n : Nat) : FreshFrom 0 (initState n) := by
  intro k _ hk
  simp only [initState, List.length_replicate] at hk ⊢
  simp [List.getElem?_replicate, hk]

theorem freshFrom_orchStep (i : Nat) (out : SwapOutcome) (st : OrchState)
    (h : FreshFrom i st) : FreshFrom (i + 1) (orchStep i out st) := by
  intro k hik hk
  rw [orchStep_length] at hk
  rw [orchStep_get_ne i out st k (by omega)]
  exact h k (by omega) hk

theorem slotStep_orchStep (i : Nat) (out : SwapOutcome) (st : OrchState)
    (h : FreshFrom i st) : slotStep st (orchStep i out st) := by
  intro k
  rcases eq_or_ne k i with rfl | hki
  · by_cases hlt : k < st.resultGifUrls.length
    · exact Or.inr ⟨h k (Nat.le_refl k) hlt, slotVal out,
        orchStep_get_self k out st hlt⟩
    · refine Or.inl ?_
      have h1 : st.resultGifUrls[k]? = none :=
        List.getElem?_eq_none (Nat.le_of_not_lt hlt)
      have h2 : (orchStep k out st).resultGifUrls[k]? = none :=
        List.getElem?_eq_none (by rw [orchStep_length]; exact Nat.le_of_not_lt hlt)
      rw [h1, h2]
  · exact Or.inl (orchStep_get_ne i out st k hki).symm

theorem orchStates_head (i : Nat) (outs : List SwapOutcome) (st : OrchState) :
    (orchStates i outs st).head? = some st := by
  cases outs <;> rfl

/-- Along the published trace, every slot transition is
Pending-to-terminal; a slot is never rewritten and never cleared. -/
theorem orchStates_chain_slotStep (outs : List SwapOutcome) :
    ∀ (i : Nat) (st : OrchState), FreshFrom i st →
      List.Chain' slotStep (orchStates i outs st) := by
  induction outs with
  | nil => intro i st _; simp [orchStates]
  | cons out rest ih =>
      intro i st h
      rw [orchStates, List.chain'_cons']
      refine ⟨?_, ih (i + 1) (orchStep i out st) (freshFrom_orchStep i out st h)⟩
      intro b hb
      rw [orchStates_head] at hb
      cases hb
      exact slotStep_orchStep i out st h

theorem orchStep_completedCount_le (i : Nat) (out : SwapOutcome) (st : OrchState) :
    (orchStep i out st).completedCount ≤ max st.completedCount (i + 1) := by
  cases out <;> simp [orchStep]

/-- `completedCount` never decreases along the published trace. -/
theorem orchStates_chain_count (outs : List SwapOutcome) :
    ∀ (i : Nat) (st : OrchState), st.completedCount ≤ i →
      List.Chain' (fun a b => a.completedCount ≤ b.completedCount)
        (orchStates i outs st) := by
  induction outs with
  | nil => intro i st _; simp [orchStates]
  | cons out rest ih =>
      intro i st h
      rw [orchStates, List.chain'_cons']
      constructor
      · intro b hb
        rw [orchStates_head] at hb
        cases hb
        cases out with
        | ok url => exact Nat.le_trans h (Nat.le_succ i)
        | error e => exact Nat.le_refl _
      · refine ih (i + 1) (orchStep i out st) ?_
        cases out with
        | ok url => exact Nat.le_refl _
        | error e => exact Nat.le_succ_of_le h

/-- If the final pair succeeds, the loop ends with
`completedCount = i + N` (the success branch sets it to index + 1). -/
theorem runBatch_count_last_ok (outs : List SwapOutcome) :
    ∀ (i : Nat) (st : OrchState) (url : String),
      outs.getLast? = some (Except.ok url) →
      (runBatch i outs st).completedCount = i + outs.length := by
  induction outs with
  | nil => intro i st url h; simp at h
  | cons out rest ih =>
      intro i st url h
      match rest, h with
      | [], h =>
          simp only [List.getLast?_singleton, Option.some.injEq] at h
          subst h
          simp [runBatch, orchStep]
      | r :: rs, h =>
          rw [List.getLast?_cons_cons] at h
          rw [runBatch, ih (i + 1) (orchStep i out st) url h]
          simp
          omega

/-! ### Claims about the batch orchestrator -/

/-- Claim C1: for every batch run (single-face or individual-faces mode)
the result array has length N at every point after initialization, a
non-empty URL stored in slot `k` is exactly the output produced for input
pair `k` (never another index's), and along the whole trace a slot only
moves from the Pending placeholder to a terminal value, never backward and
never rewritten once terminal. -/
theorem claim_c1_batch_invariants (outs : List SwapOutcome) (faces : List (String × String))
    (swap : String → String → SwapOutcome) (gifs : List String) :
    (∀ s ∈ processAllGifSwaps outs, s.resultGifUrls.length = outs.length) ∧
    (∀ s ∈ processAllGifSwapsWithIndividualFaces faces swap gifs,
      s.resultGifUrls.length = gifs.length) ∧
    (∀ s ∈ processAllGifSwaps outs, ∀ (k : Nat) (url : String), url ≠ "" →
      s.resultGifUrls[k]? = some (some url) → outs[k]? = some (Except.ok url)) ∧
    (∀ s ∈ processAllGifSwapsWithIndividualFaces faces swap gifs,
      ∀ (k : Nat) (url : String), url ≠ "" →
        s.resultGifUrls[k]? = some (some url) →
        ∃ g f, gifs[k]? = some g ∧ faceFor faces g = some f ∧ swap f g = Except.ok url) ∧
    List.Chain' slotStep (processAllGifSwaps outs) ∧
    List.Chain' slotStep (processAllGifSwapsWithIndividualFaces faces swap gifs) := by
  have hinit : ∀ n : Nat, (initState n).resultGifUrls.length = n := by
    intro n; simp [initState]
  have hcorr : ∀ (os : List SwapOutcome) (s : OrchState), s ∈ processAllGifSwaps os →
      ∀ (k : Nat) (url : String), url ≠ "" →
        s.resultGifUrls[k]? = some (some url) → os[k]? = some (Except.ok url) := by
    intro os s hs k url hurl hget
    rcases orchStates_mem_get os 0 (initState os.length) s hs k with h | ⟨out, _, hout, hval⟩
    · rw [hget] at h
      by_cases hk : k < os.length
      · rw [initState] at h
        simp [List.getElem?_replicate, hk] at h
      · have : (initState os.length).resultGifUrls[k]? = none :=
          List.getElem?_eq_none (by rw [hinit]; omega)
        rw [this] at h
        exact absurd h (by simp)
    · rw [hget] at hval
      simp only [Option.some.injEq] at hval
      simp only [Nat.sub_zero] at hout
      cases out with
      | ok u => rw [hout]; simp [slotVal] at hval; rw [hval]
      | error e => simp [slotVal] at hval; exact absurd hval hurl
  refine ⟨?_, ?_, hcorr outs, ?_, ?_, ?_⟩
  · intro s hs
    rw [orchStates_mem_length 0 outs (initState outs.length) s hs, hinit]
  · intro s hs
    rw [processAllGifSwapsWithIndividualFaces, orchStatesInd_eq_map] at hs
    have := orchStates_mem_length 0 (gifs.map (individualOutcome swap faces))
      (initState gifs.length) s hs
    rw [this, hinit]
  · intro s hs k url hurl hget
    rw [processAllGifSwapsWithIndividualFaces, orchStatesInd_eq_map] at hs
    have hmap := hcorr (gifs.map (individualOutcome swap faces)) s
      (by simpa [processAllGifSwaps] using hs) k url hurl hget
    rw [List.getElem?_map] at hmap
    rcases Option.map_eq_some'.mp hmap with ⟨g, hg, hgout⟩
    refine ⟨g, ?_⟩
    rw [individualOutcome] at hgout
    cases hface : faceFor faces g with
    | none => rw [hface] at hgout; exact absurd hgout (by simp)
    | some f => rw [hface] at hgout; exact ⟨f, hg, rfl, hgout⟩
  · exact orchStates_chain_slotStep outs 0 (initState outs.length)
      (freshFrom_initState outs.length)
  · rw [processAllGifSwapsWithIndividualFaces, orchStatesInd_eq_map]
    exact orchStates_chain_slotStep (gifs.map (individualOutcome swap faces)) 0
      (initState gifs.length) (freshFrom_initState gifs.length)

theorem claim_c1_witness :
    ([Except.ok "a"] : List SwapOutcome)[0]? = some (Except.ok "a") := by
  have hmem : batchFinal [Except.ok "a"] ∈ processAllGifSwaps [Except.ok "a"] := by decide
  have hget : (batchFinal [Except.ok "a"]).resultGifUrls[0]? = some (some "a") := by decide
  exact (claim_c1_batch_invariants [Except.ok "a"] [] (fun _ _ => Except.error "x") []).2.2.1
    (batchFinal [Except.ok "a"]) hmem 0 "a" (by decide) hget

/-- Claim C2: when the processing of pair `i` fails (submission or polling
rejection, or a missing face in individual mode), the `''` failure marker
is written at slot `i`, the loop still runs all N iterations (a failure
never aborts the batch), an iteration touches no slot other than its own,
and every sibling slot ends up determined solely by its own pair's
outcome. -/
theorem claim_c2_failure_isolation (outs : List SwapOutcome)
    (faces : List (String × String)) (swap : String → String → SwapOutcome)
    (gifs : List String) :
    (∀ (i : Nat) (e : String), outs[i]? = some (Except.error e) →
      (batchFinal outs).resultGifUrls[i]? = some (some "")) ∧
    (processAllGifSwaps outs).length = outs.length + 1 ∧
    (processAllGifSwapsWithIndividualFaces faces swap gifs).length = gifs.length + 1 ∧
    (∀ (st : OrchState) (i : Nat) (out : SwapOutcome) (k : Nat), k ≠ i →
      (orchStep i out st).resultGifUrls[k]? = st.resultGifUrls[k]?) ∧
    (∀ (k : Nat) (out : SwapOutcome), outs[k]? = some out →
      (batchFinal outs).resultGifUrls[k]? = some (some (slotVal out))) ∧
    (∀ (k : Nat) (g : String), gifs[k]? = some g →
      (batchFinalInd faces swap gifs).resultGifUrls[k]? =
        some (some (slotVal (individualOutcome swap faces g)))) := by
  have hfin : ∀ (os : List SwapOutcome) (k : Nat) (out : SwapOutcome),
      os[k]? = some out →
      (batchFinal os).resultGifUrls[k]? = some (some (slotVal out)) := by
    intro os k out hout
    have := runBatch_get_processed os 0 (initState os.length)
      (by simp [initState]) k out hout
    simpa using this
  refine ⟨?_, ?_, ?_, ?_, hfin outs, ?_⟩
  · intro i e he
    have := hfin outs i (Except.error e) he
    simpa [slotVal] using this
  · rw [processAllGifSwaps, orchStates_length]
  · rw [processAllGifSwapsWithIndividualFaces, orchStatesInd_eq_map, orchStates_length,
      List.length_map]
  · intro st i out k hk
    exact orchStep_get_ne i out st k hk
  · intro k g hg
    have hmap : (gifs.map (individualOutcome swap faces))[k]? =
        some (individualOutcome swap faces g) := by
      rw [List.getElem?_map, hg, Option.map_some']
    have := hfin (gifs.map (individualOutcome swap faces)) k
      (individualOutcome swap faces g) hmap
    rw [batchFinalInd]
    rw [batchFinal, List.length_map] at this
    exact this

theorem claim_c2_witness :
    (batchFinal [Except.error "HTTP 400: Bad Request", Except.ok "u"]).resultGifUrls[0]?
      = some (some "") := by
  exact (claim_c2_failure_isolation [Except.error "HTTP 400: Bad Request", Except.ok "u"]
    [] (fun _ _ => Except.error "x") []).1 0 "HTTP 400: Bad Request" rfl

/-- Claim C3 counterexample: in a two-pair batch whose first pair succeeds
and whose second pair fails, every slot is terminal at the end of the run
but `completedCount` is 1, not N = 2 — `setCompletedCount` runs only in the
success branch, so the count does not reach N and is not published after a
failed pair resolves. -/
theorem claim_c3_counterexample :
    (batchFinal [Except.ok "u", Except.error "HTTP 500: Internal Server Error"]).resultGifUrls
        = [some "u", some ""] ∧
    (batchFinal [Except.ok "u",
        Except.error "HTTP 500: Internal Server Error"]).completedCount = 1 ∧
    (1 : Nat) ≠ 2 := by
  exact ⟨by decide, by decide, by decide⟩

/-- Claim C3 (amended): `completedCount` is monotonically non-decreasing
along the published trace; it is updated only when a pair succeeds, to that
pair's index + 1 (a failed pair leaves it untouched); consequently it
reaches N whenever the final pair succeeds, but not necessarily when the
batch ends in a failed pair. -/
theorem claim_c3_completed_count (outs : List SwapOutcome) :
    List.Chain' (fun a b => a.completedCount ≤ b.completedCount)
      (processAllGifSwaps outs) ∧
    (∀ (st : OrchState) (i : Nat) (url : String),
      (orchStep i (Except.ok url) st).completedCount = i + 1) ∧
    (∀ (st : OrchState) (i : Nat) (e : String),
      (orchStep i (Except.error e) st).completedCount = st.completedCount) ∧
    (∀ url : String, outs.getLast? = some (Except.ok url) →
      (batchFinal outs).completedCount = outs.length) := by
  refine ⟨?_, fun _ _ _ => rfl, fun _ _ _ => rfl, ?_⟩
  · exact orchStates_chain_count outs 0 (initState outs.length) (Nat.le_refl 0)
  · intro url hurl
    rw [batchFinal, runBatch_count_last_ok outs 0 (initState outs.length) url hurl]
    omega

theorem claim_c3_witness :
    (batchFinal [Except.ok "a"]).completedCount = 1 := by
  exact (claim_c3_completed_count [Except.ok "a"]).2.2.2 "a" rfl

/-! ## Job poller (`pollPredictionStatus` in `App.tsx`)

Each call of the inner `poll` closure performs one status query.  A query
either throws (fetch rejection, JSON-parse failure) or yields the HTTP
response together with the parsed body
`{id, status, output, error}`; the stream of query results is the oracle
`qs : Nat → QueryResult`. -/

/-- Body of one status response; `error = ""` models a missing/falsy
`data.error` (the code applies `data.error || 'Face swap failed'`). -/
structure StatusData where
  status : String
  output : String
  error : String
deriving Repr, DecidableEq

/-- One status query: either the awaited `fetch`/`json` threw, or it
returned an HTTP response (`ok`, `status`, `statusText`) with body. -/
inductive QueryResult where
  | thrown (msg : String)
  | response (ok : Bool) (status : Nat) (statusText : String) (data : StatusData)
deriving Repr, DecidableEq

/-- Result of the poll promise. -/
inductive PollOutcome where
  | resolved (output : String)
  | rejected (msg : String)
deriving Repr, DecidableEq

/-- One execution of the `poll` closure body: `none` means the status was
not terminal and `setTimeout(poll, 3000)` was scheduled; `some` is the
settlement of the promise.  A non-ok HTTP response throws inside the `try`
and is caught, rejecting the promise; a thrown query rejects it directly;
`succeeded` resolves with `data.output`; `failed` and `canceled` reject. -/
def pollOnce (q : QueryResult) : Option PollOutcome :=
  match q with
  | QueryResult.thrown msg => some (PollOutcome.rejected msg)
  | QueryResult.response ok status statusText data =>
      if !ok then
        some (PollOutcome.rejected ("HTTP " ++ toString status ++ ": " ++ statusText))
      else if data.status = "succeeded" then
        some (PollOutcome.resolved data.output)
      else if data.status = "failed" then
        some (PollOutcome.rejected (if data.error = "" then "Face swap failed" else data.error))
      else if data.status = "canceled" then
        some (PollOutcome.rejected "Face swap was canceled")
      else none

/-- `pollPredictionStatus` observed after the first `n` queries: the
settlement produced by the first terminal query among queries
`0, …, n-1`, tagged with that query's index, or `none` if every one of
them rescheduled. -/
def pollRun (qs : Nat → QueryResult) : Nat → Option (Nat × PollOutcome)
  | 0 => none
  | n + 1 =>
      match pollRun qs n with
      | some r => some r
      | none => (pollOnce (qs n)).map (fun o => (n, o))

/-- Time (ms after the first query) at which query `n` is issued: the
first query runs immediately, and each non-terminal query schedules the
next via `setTimeout(poll, 3000)`; `none` if query `n` never happens. -/
def pollSchedule (qs : Nat → QueryResult) : Nat → Option Nat
  | 0 => some 0
  | n + 1 =>
      match pollSchedule qs n with
      | none => none
      | some t => if pollOnce (qs n) = none then some (t + 3000) else none

theorem pollRun_none (qs : Nat → QueryResult) :
    ∀ n : Nat, (∀ k < n, pollOnce (qs k) = none) → pollRun qs n = none := by
  intro n
  induction n with
  | zero => intro _; rfl
  | succ n ih =>
      intro h
      rw [pollRun, ih (fun k hk => h k (Nat.lt_succ_of_lt hk)),
        h n (Nat.lt_succ_self n)]
      rfl

theorem pollSchedule_eq (qs : Nat → QueryResult) :
    ∀ n : Nat, (∀ k < n, pollOnce (qs k) = none) → pollSchedule qs n = some (3000 * n) := by
  intro n
  induction n with
  | zero => intro _; rfl
  | succ n ih =>
      intro h
      rw [pollSchedule, ih (fun k hk => h k (Nat.lt_succ_of_lt hk))]
      simp only [h n (Nat.lt_succ_self n), if_pos]
      rw [Nat.mul_succ]

/-- Claim C5: a thrown or non-ok status query rejects the whole poll at
that very query (the poll settles there, no retry of the query);
`succeeded` resolves with the output URL, `failed` and `canceled` reject;
any other status leaves the poll unsettled after arbitrarily many queries
— there is no attempt ceiling — and each requery happens a fixed 3000 ms
after the previous one. -/
theorem claim_c5_poller (qs : Nat → QueryResult) :
    (∀ (n : Nat) (o : PollOutcome), pollRun qs n = none → pollOnce (qs n) = some o →
      pollRun qs (n + 1) = some (n, o)) ∧
    (∀ msg : String, pollOnce (QueryResult.thrown msg) = some (PollOutcome.rejected msg)) ∧
    (∀ (status : Nat) (statusText : String) (data : StatusData),
      pollOnce (QueryResult.response false status statusText data) =
        some (PollOutcome.rejected ("HTTP " ++ toString status ++ ": " ++ statusText))) ∧
    (∀ (status : Nat) (statusText : String) (data : StatusData),
      data.status = "succeeded" →
      pollOnce (QueryResult.response true status statusText data) =
        some (PollOutcome.resolved data.output)) ∧
    (∀ (status : Nat) (statusText : String) (data : StatusData),
      data.status = "failed" ∨ data.status = "canceled" →
      ∃ msg, pollOnce (QueryResult.response true status statusText data) =
        some (PollOutcome.rejected msg)) ∧
    (∀ n : Nat, (∀ k < n, pollOnce (qs k) = none) →
      pollRun qs n = none ∧ pollSchedule qs n = some (3000 * n)) := by
  refine ⟨?_, fun _ => rfl, fun _ _ _ => rfl, ?_, ?_, ?_⟩
  · intro n o hnone honce
    rw [pollRun, hnone, honce]
    rfl
  · intro status statusText data h
    simp [pollOnce, h]
  · intro status statusText data h
    rcases h with h | h
    · refine ⟨if data.error = "" then "Face swap failed" else data.error, ?_⟩
      simp [pollOnce, h]
    · refine ⟨"Face swap was canceled", ?_⟩
      rcases eq_or_ne data.status "succeeded" with hs | hs
      · rw [h] at hs; simp at hs
      · rcases eq_or_ne data.status "failed" with hf | hf
        · rw [h] at hf; simp at hf
        · simp [pollOnce, hs, hf, h]
  · intro n h
    exact ⟨pollRun_none qs n h, pollSchedule_eq qs n h⟩

theorem claim_c5_witness :
    pollRun (fun n => if n = 0 then
        QueryResult.response true 200 "OK" ⟨"processing", "", ""⟩
      else QueryResult.response true 200 "OK" ⟨"succeeded", "http://out.gif", ""⟩) 2 =
      some (1, PollOutcome.resolved "http://out.gif") := by
  exact (claim_c5_poller _).1 1 (PollOutcome.resolved "http://out.gif") rfl rfl

/-! ## GIF selection (`handleGifSelect` in `App.tsx`) -/

/-- The `setSelectedGifs` updater of `handleGifSelect`: toggle off an
already-selected GIF, refuse (after an alert) to grow past 5, otherwise
append. -/
def handleGifSelect (prev : List String) (gifUrl : String) : List String :=
  if prev.contains gifUrl then
    prev.filter (fun url => url ≠ gifUrl)
  else if prev.length ≥ 5 then
    prev
  else
    prev ++ [gifUrl]

/-- Selection states reachable in the UI: `selectedGifs` starts as `[]`,
is toggled by `handleGifSelect`, and `handleReset` puts it back to `[]`.
No other code writes `selectedGifs`. -/
inductive ReachableSelection : List String → Prop
  | init : ReachableSelection []
  | select (s : List String) (g : String) :
      ReachableSelection s → ReachableSelection (handleGifSelect s g)
  | reset (s : List String) :
      ReachableSelection s → ReachableSelection []

/-- The `Continue` button that starts a batch is rendered only when
`selectedGifs.length > 0`. -/
def canStartBatch (s : List String) : Prop := 0 < s.length

/-- Claim C10: every reachable selection has at most 5 GIFs; selecting a
new GIF with 5 already selected leaves the selection unchanged; selecting
an already-selected GIF removes it; hence a batch can only start from a
selection of between 1 and 5 pairs. -/
theorem claim_c10_selection_bound :
    (∀ s : List String, ReachableSelection s → s.length ≤ 5) ∧
    (∀ (s : List String) (g : String), s.length = 5 → s.contains g = false →
      handleGifSelect s g = s) ∧
    (∀ (s : List String) (g : String), s.contains g = true →
      (handleGifSelect s g).contains g = false) ∧
    (∀ s : List String, ReachableSelection s → canStartBatch s →
      1 ≤ s.length ∧ s.length ≤ 5) := by
  have hbound : ∀ s : List String, ReachableSelection s → s.length ≤ 5 := by
    intro s hs
    induction hs with
    | init => exact Nat.zero_le 5
    | select s g _ ih =>
        unfold handleGifSelect
        by_cases hc : s.contains g
        · rw [if_pos hc]
          exact Nat.le_trans (List.length_filter_le _ s) ih
        · rw [if_neg hc]
          by_cases hl : s.length ≥ 5
          · rw [if_pos hl]; exact ih
          · rw [if_neg hl]
            simp only [List.length_append, List.length_singleton]
            omega
    | reset s _ _ => exact Nat.zero_le 5
  refine ⟨hbound, ?_, ?_, ?_⟩
  · intro s g hlen hc
    unfold handleGifSelect
    rw [hc]
    simp [hlen]
  · intro s g hc
    unfold handleGifSelect
    rw [hc]
    simp
  · intro s hs hstart
    exact ⟨hstart, hbound s hs⟩

theorem claim_c10_witness :
    handleGifSelect ["g1", "g2", "g3", "g4", "g5"] "g6" = ["g1", "g2", "g3", "g4", "g5"] := by
  exact (claim_c10_selection_bound).2.1 ["g1", "g2", "g3", "g4", "g5"] "g6" rfl (by decide)

/-! ## Abandoning a batch (`handleReset` and `pollIntervalRef` in
`App.tsx`)

The browser timer queue is modelled explicitly: `setTimeout` registers a
fresh timer id as pending; `clearInterval`/`clearTimeout` removes the id
it is given.  `pollIntervalRef` is created with `useRef(null)`; the source
contains no assignment to `pollIntervalRef.current`, so the repoll
`setTimeout(poll, 3000)` inside `pollPredictionStatus` registers its timer
without storing the id in the ref. -/

structure TimerSystem where
  nextId : Nat
  pendingTimers : List Nat
deriving Repr, DecidableEq

/-- `setTimeout(fn, ms)`: registers a fresh pending timer, returns its id. -/
def setTimeoutReg (ts : TimerSystem) : TimerSystem × Nat :=
  ({ nextId := ts.nextId + 1, pendingTimers := ts.nextId :: ts.pendingTimers }, ts.nextId)

/-- `clearInterval(id)` / `clearTimeout(id)`: deschedules that id. -/
def clearTimerReg (ts : TimerSystem) (id : Nat) : TimerSystem :=
  { ts with pendingTimers := ts.pendingTimers.filter (fun t => t ≠ id) }

/-- The ref cell `pollIntervalRef`. -/
structure AppRefs where
  pollIntervalRef : Option Nat
deriving Repr, DecidableEq

/-- `useRef<ReturnType<typeof setTimeout> | null>(null)`. -/
def initRefs : AppRefs := { pollIntervalRef := none }

/-- The repoll `setTimeout(poll, 3000)` in `pollPredictionStatus`: the
timer is scheduled but its id is not written to `pollIntervalRef` (no
statement in the source assigns `pollIntervalRef.current`). -/
def scheduleRepoll (ts : TimerSystem) (refs : AppRefs) : TimerSystem × AppRefs :=
  ((setTimeoutReg ts).1, refs)

/-- The timer-related part of `handleReset`:
`if (pollIntervalRef.current) clearInterval(pollIntervalRef.current)`. -/
def handleResetTimers (ts : TimerSystem) (refs : AppRefs) : TimerSystem :=
  match refs.pollIntervalRef with
  | some id => clearTimerReg ts id
  | none => ts

/-- Claim C7 evaluated at the failing input: starting from the initial ref
(`null`, as in the source, which never assigns it) with one pending
3-second repoll timer, `handleReset` leaves that timer pending — the
scheduled poll query still fires after the user resets, contradicting the
claim that no further poll queries are scheduled after abandonment.  In
general, `handleReset` deschedules nothing whenever the ref still holds
`null`, and `scheduleRepoll` never updates the ref. -/
theorem claim_c7_reset_does_not_stop_polls :
    (handleResetTimers (scheduleRepoll { nextId := 0, pendingTimers := [] } initRefs).1
      (scheduleRepoll { nextId := 0, pendingTimers := [] } initRefs).2).pendingTimers = [0] ∧
    (∀ (ts : TimerSystem) (refs : AppRefs), refs.pollIntervalRef = none →
      handleResetTimers ts refs = ts) ∧
    (∀ (ts : TimerSystem) (refs : AppRefs), (scheduleRepoll ts refs).2 = refs) := by
  refine ⟨rfl, ?_, fun _ _ => rfl⟩
  intro ts refs h
  rw [handleResetTimers, h]

theorem claim_c7_witness :
    handleResetTimers { nextId := 3, pendingTimers := [2, 1] } initRefs =
      { nextId := 3, pendingTimers := [2, 1] } := by
  exact (claim_c7_reset_does_not_stop_polls).2.1
    { nextId := 3, pendingTimers := [2, 1] } initRefs rfl

/-! ## Error classifier (frontend error-utils module)

`parseError(response)` reads the JSON error body `{error, details,
errorType}` and picks the error kind: the body-supplied `errorType` when
it is truthy, otherwise `getErrorTypeFromStatus(response.status)`; when
the body is not parseable JSON it falls back to the status table as well.
Only the kind selection is relevant here; the derived title/message/action
lookups are presentation data. -/

/-- Parsed error body (`BackendError`); `errorType = ""` models a
missing/falsy `errorType` field. -/
structure BackendErrorBody where
  error : String
  details : String
  errorType : String
deriving Repr, DecidableEq

/-- An HTTP response as seen by `parseError`: status plus the JSON body
when `response.json()` succeeds. -/
structure ClassifierInput where
  status : Nat
  statusText : String
  body : Option BackendErrorBody
deriving Repr, DecidableEq

/-- `getErrorTypeFromStatus`: the fixed status table. -/
def getErrorTypeFromStatus (status : Nat) : String :=
  match status with
  | 401 => "auth_error"
  | 402 => "payment_required"
  | 403 => "access_denied"
  | 404 => "file_not_found"
  | 408 => "timeout_error"
  | 413 => "file_too_large"
  | 422 => "animation_error"
  | 429 => "rate_limit"
  | 503 => "network_error"
  | 507 => "memory_error"
  | _ => "unknown_error"

/-- The error-kind selection of `parseError`:
`errorData.errorType || getErrorTypeFromStatus(response.status)`, with the
`catch` branch (non-JSON body) also using the status table. -/
def parseErrorType (resp : ClassifierInput) : String :=
  match resp.body with
  | some b => if b.errorType = "" then getErrorTypeFromStatus resp.status else b.errorType
  | none => getErrorTypeFromStatus resp.status

/-- The response supplies no usable `errorType` (absent body, or falsy
field). -/
def noBodyErrorType (resp : ClassifierInput) : Prop :=
  ∀ b, resp.body = some b → b.errorType = ""

/-- Claim C4 counterexample: a response carrying HTTP 402 whose body
supplies `errorType: "auth_error"` is classified as `auth_error` — the
body-supplied kind takes priority, so HTTP 402 does not yield
`payment_required` regardless of body content. -/
theorem claim_c4_counterexample :
    parseErrorType
        { status := 402, statusText := "Payment Required",
          body := some { error := "x", details := "y", errorType := "auth_error" } }
      = "auth_error" ∧ ("auth_error" : String) ≠ "payment_required" := by
  exact ⟨rfl, by decide⟩

/-- Claim C4 (amended): for every response without a body-supplied
`errorType`, the classifier maps the HTTP status through the fixed table
401→auth_error, 402→payment_required, 403→access_denied,
404→file_not_found, 408→timeout_error, 413→file_too_large,
422→animation_error, 429→rate_limit, 503→network_error, 507→memory_error,
anything else→unknown_error; in particular such a response carrying HTTP
402 yields `payment_required` regardless of the rest of the body. -/
theorem claim_c4_status_table (resp : ClassifierInput) :
    (noBodyErrorType resp → parseErrorType resp = getErrorTypeFromStatus resp.status) ∧
    getErrorTypeFromStatus 401 = "auth_error" ∧
    getErrorTypeFromStatus 402 = "payment_required" ∧
    getErrorTypeFromStatus 403 = "access_denied" ∧
    getErrorTypeFromStatus 404 = "file_not_found" ∧
    getErrorTypeFromStatus 408 = "timeout_error" ∧
    getErrorTypeFromStatus 413 = "file_too_large" ∧
    getErrorTypeFromStatus 422 = "animation_error" ∧
    getErrorTypeFromStatus 429 = "rate_limit" ∧
    getErrorTypeFromStatus 503 = "network_error" ∧
    getErrorTypeFromStatus 507 = "memory_error" ∧
    (∀ s : Nat, s ∉ ([401, 402, 403, 404, 408, 413, 422, 429, 503, 507] : List Nat) →
      getErrorTypeFromStatus s = "unknown_error") ∧
    (noBodyErrorType resp → resp.status = 402 →
      parseErrorType resp = "payment_required") := by
  have htable : ∀ s : Nat,
      s ∉ ([401, 402, 403, 404, 408, 413, 422, 429, 503, 507] : List Nat) →
      getErrorTypeFromStatus s = "unknown_error" := by
    intro s hs
    unfold getErrorTypeFromStatus
    split
    all_goals simp_all
  have hsel : noBodyErrorType resp →
      parseErrorType resp = getErrorTypeFromStatus resp.status := by
    intro h
    unfold parseErrorType
    cases hb : resp.body with
    | none => rfl
    | some b => simp [h b hb]
  refine ⟨hsel, rfl, rfl, rfl, rfl, rfl, rfl, rfl, rfl, rfl, rfl, htable, ?_⟩
  intro h h402
  rw [hsel h, h402]
  exact rfl

theorem claim_c4_witness :
    parseErrorType
        { status := 402, statusText := "Payment Required",
          body := some { error := "e", details := "d", errorType := "" } }
      = "payment_required" := by
  exact (claim_c4_status_table _).2.2.2.2.2.2.2.2.2.2.2.2
    (fun b hb => by cases hb; rfl) rfl

/-! ## `POST /api/swap` (`swap.ts`)

The handler destructures `{sourceImageData, targetGifUrl}`, validates,
then calls `replicate.predictions.create`; a thrown provider error is
classified by substring checks on the error message.  `new URL(url)` is
modelled by the oracle `parses` (whether the constructor throws); the
provider call by an `Except` oracle.  A JS-falsy string field (absent or
`''`) is modelled by `''` via `Option.getD`, which is behaviourally
identical for this handler. -/

/-- JSON body sent by the handler; absent fields are `none`. -/
structure SwapResponseBody where
  success : Option Bool
  predictionId : Option String
  status : Option String
  error : Option String
  details : Option String
  errorType : Option String
deriving Repr, DecidableEq

def emptyBody : SwapResponseBody :=
  { success := none, predictionId := none, status := none,
    error := none, details := none, errorType := none }

/-- `res.status(s).json({ error })` — the validation/config error shape. -/
def errorOnlyBody (msg : String) : SwapResponseBody :=
  { emptyBody with error := some msg }

/-- `res.status(s).json({ error, details, errorType })` — the classified
provider-failure shape. -/
def classifiedBody (msg details errorType : String) : SwapResponseBody :=
  { emptyBody with error := some msg, details := some details, errorType := some errorType }

/-- HTTP status, body, and whether `replicate.predictions.create` was
reached before responding. -/
structure SwapHandlerResult where
  status : Nat
  body : SwapResponseBody
  contactedProvider : Bool
deriving Repr, DecidableEq

structure SwapRequest where
  sourceImageData : Option String
  targetGifUrl : Option String
deriving Repr, DecidableEq

/-- JS `String.prototype.startsWith`, modelled on the character list so
that concrete instances reduce in the kernel. -/
def strStartsWith (s p : String) : Bool := p.data.isPrefixOf s.data

/-- `isValidUrl`: `new URL(url)` must not throw (oracle `parses`) and the
string must start with `http://` or `https://`. -/
def isValidUrl (parses : String → Bool) (url : String) : Bool :=
  parses url && (strStartsWith url "http://" || strStartsWith url "https://")

/-- Substring test used to model `error.message.includes(...)`. -/
def strContains (s pat : String) : Bool := (s.splitOn pat).length != 1

/-- The `catch` block of `POST /api/swap`: the chain of
`error.message.includes(...)` checks, in source order. -/
def classifySwapError (msg : String) : SwapHandlerResult :=
  if strContains msg "402" || strContains msg "Payment Required" ||
      strContains msg "Insufficient credit" then
    ⟨402, classifiedBody "Insufficient credits"
      "You have insufficient credits to run this model. Please add credits to your Replicate account at https://replicate.com/account/billing and try again."
      "payment_required", true⟩
  else if strContains msg "401" || strContains msg "authentication" ||
      strContains msg "Unauthorized" then
    ⟨401, classifiedBody "Authentication failed"
      "Invalid API token. Please check your Replicate API token configuration."
      "auth_error", true⟩
  else if strContains msg "429" || strContains msg "rate limit" then
    ⟨429, classifiedBody "Rate limit exceeded"
      "Too many requests. Please wait before trying again." "rate_limit", true⟩
  else if strContains msg "400" || strContains msg "Bad Request" then
    ⟨400, classifiedBody "Invalid request"
      "The request parameters are invalid. Please check your image data and GIF URL."
      "bad_request", true⟩
  else if strContains msg "model" || strContains msg "prediction" then
    ⟨500, classifiedBody "Model error"
      "The face swap model encountered an error. Please try again with different images."
      "model_error", true⟩
  else if strContains msg "network" || strContains msg "timeout" ||
      strContains msg "ECONNRESET" then
    ⟨503, classifiedBody "Network error"
      "Network connection failed. Please check your internet connection and try again."
      "network_error", true⟩
  else
    ⟨500, classifiedBody "Face swap failed" msg "unknown_error", true⟩

/-- The `POST /api/swap` handler: validation in source order, then the
provider call (`Except.ok (id, status)` for a created prediction,
`Except.error msg` for a thrown error handled by `classifySwapError`). -/
def handleSwap (parses : String → Bool) (tokenPresent : Bool)
    (provider : Except String (String × String)) (req : SwapRequest) : SwapHandlerResult :=
  let src := req.sourceImageData.getD ""
  let tgt := req.targetGifUrl.getD ""
  if src = "" || tgt = "" then
    ⟨400, errorOnlyBody "Missing required fields: sourceImageData and targetGifUrl are required",
      false⟩
  else if !(strStartsWith src "data:image/") then
    ⟨400, errorOnlyBody "Invalid source image data format", false⟩
  else if !isValidUrl parses tgt then
    ⟨400, errorOnlyBody "Invalid target GIF URL", false⟩
  else if !tokenPresent then
    ⟨500, errorOnlyBody "API configuration error", false⟩
  else
    match provider with
    | Except.ok (pid, pstatus) =>
        ⟨200,
          { emptyBody with
              success := some true, predictionId := some pid, status := some pstatus },
          true⟩
    | Except.error msg => classifySwapError msg

/-- Claim C6 counterexample: a request whose `sourceImageData` is not a
`data:image/` data-URL is answered with HTTP 400 and the body
`{error: 'Invalid source image data format'}` — the body carries neither
`details` nor `errorType`, so it is not the claimed three-field classified
shape with errorType `bad_request`/`invalid_format`. -/
theorem claim_c6_counterexample :
    (handleSwap (fun _ => true) true (Except.ok ("p1", "starting"))
        { sourceImageData := some "notadataurl", targetGifUrl := some "http://a.com/x.gif" }).status
      = 400 ∧
    (handleSwap (fun _ => true) true (Except.ok ("p1", "starting"))
        { sourceImageData := some "notadataurl", targetGifUrl := some "http://a.com/x.gif" }).body.errorType
      = none ∧
    (handleSwap (fun _ => true) true (Except.ok ("p1", "starting"))
        { sourceImageData := some "notadataurl", targetGifUrl := some "http://a.com/x.gif" }).body.details
      = none ∧
    (handleSwap (fun _ => true) true (Except.ok ("p1", "starting"))
        { sourceImageData := some "notadataurl", targetGifUrl := some "http://a.com/x.gif" }).contactedProvider
      = false := by
  exact ⟨by decide, by decide, by decide, by decide⟩

/-- Claim C6 (amended): a request whose `sourceImageData` is missing or
not a `data:image/` data-URL, or whose `targetGifUrl` does not validate as
an http/https URL, is answered with HTTP 400 without contacting the
Provider, with a body of shape `{error}` only (no `details`, no
`errorType`); the three-field classified shape `{error, details,
errorType}` is produced (only) for provider-side failures. -/
theorem claim_c6_validation (parses : String → Bool) (tokenPresent : Bool)
    (provider : Except String (String × String)) (req : SwapRequest) :
    ((req.sourceImageData.getD "" = "" ∨
        strStartsWith (req.sourceImageData.getD "") "data:image/" = false ∨
        isValidUrl parses (req.targetGifUrl.getD "") = false) →
      (handleSwap parses tokenPresent provider req).status = 400 ∧
      (handleSwap parses tokenPresent provider req).contactedProvider = false ∧
      (∃ m, (handleSwap parses tokenPresent provider req).body = errorOnlyBody m) ∧
      (handleSwap parses tokenPresent provider req).body.details = none ∧
      (handleSwap parses tokenPresent provider req).body.errorType = none) ∧
    (∀ msg : String,
      (classifySwapError msg).body.error.isSome = true ∧
      (classifySwapError msg).body.details.isSome = true ∧
      (classifySwapError msg).body.errorType.isSome = true) := by
  constructor
  · intro hbad
    have hres : ∃ m, handleSwap parses tokenPresent provider req =
        ⟨400, errorOnlyBody m, false⟩ := by
      unfold handleSwap
      rcases hbad with h | h | h
      · refine ⟨"Missing required fields: sourceImageData and targetGifUrl are required", ?_⟩
        simp [h]
      · by_cases h0 : req.sourceImageData.getD "" = "" ∨ req.targetGifUrl.getD "" = ""
        · refine ⟨"Missing required fields: sourceImageData and targetGifUrl are required", ?_⟩
          simp only []
          rcases h0 with h0 | h0 <;> simp [h0]
        · push_neg at h0
          refine ⟨"Invalid source image data format", ?_⟩
          simp [h0.1, h0.2, h]
      · by_cases h0 : req.sourceImageData.getD "" = "" ∨ req.targetGifUrl.getD "" = ""
        · refine ⟨"Missing required fields: sourceImageData and targetGifUrl are required", ?_⟩
          simp only []
          rcases h0 with h0 | h0 <;> simp [h0]
        · push_neg at h0
          by_cases h1 : strStartsWith (req.sourceImageData.getD "") "data:image/" = true
          · refine ⟨"Invalid target GIF URL", ?_⟩
            simp [h0.1, h0.2, h1, h]
          · refine ⟨"Invalid source image data format", ?_⟩
            simp only [Bool.not_eq_true] at h1
            simp [h0.1, h0.2, h1]
    rcases hres with ⟨m, hm⟩
    rw [hm]
    exact ⟨rfl, rfl, ⟨m, rfl⟩, rfl, rfl⟩
  · intro msg
    unfold classifySwapError
    repeat' split
    all_goals exact ⟨rfl, rfl, rfl⟩

theorem claim_c6_witness :
    (handleSwap (fun _ => true) true (Except.ok ("p1", "starting"))
        { sourceImageData := none, targetGifUrl := some "http://a.com/x.gif" }).status
      = 400 := by
  exact ((claim_c6_validation (fun _ => true) true (Except.ok ("p1", "starting"))
    { sourceImageData := none, targetGifUrl := some "http://a.com/x.gif" }).1
    (Or.inl rfl)).1

/-! ## `POST /api/optimize-gif` (`optimize.ts`)

The downloaded GIF is characterised by its byte size and pixel width (the
`sharp(...).metadata()` width; the `metadata.width || 500` default for a
missing width is not modelled — metadata is taken to report the input's
width).  The sharp re-encode is the oracle `enc`: given the input and the
requested resize width (`none` = no resize), it returns the output byte
size, or `none` when sharp throws (the `catch (sharpError)` path).  Per
the `withoutEnlargement`/`fit: 'inside'` resize options, the output pixel
width of a resized encode is the requested width capped at the input
width; an un-resized encode keeps the input width. -/

structure GifMeta where
  size : Nat
  width : Nat
deriving Repr, DecidableEq

/-- The JSON answer of `/api/optimize-gif` (plus the pixel width of the
returned media, for stating the no-upscale property). -/
structure OptimizeResult where
  optimizedSize : Nat
  outputWidth : Nat
  originalSize : Nat
  warning : Bool
deriving Repr, DecidableEq

/-- `Math.floor(width * Math.sqrt(14MB / size))`, embedded as the integer
square root of the exact product (the source computes it with float
arithmetic; the floor of the real value is `Nat.sqrt` of
`width² · 14·2²⁰ / size` up to the inner floor of the division). -/
def scaledWidth (inp : GifMeta) : Nat :=
  Nat.sqrt (inp.width * inp.width * (14 * 1048576) / inp.size)

/-- The `/api/optimize-gif` handler after a successful download: over
15 MB resize to the `scaledWidth` target and re-encode (200 colours);
between 8 MB and 15 MB re-encode without resizing (progressive); under
8 MB return the original bytes untouched.  If sharp throws anywhere the
`catch` returns the original bytes with `success: true` and a warning. -/
def optimizeGif (enc : GifMeta → Option Nat → Option Nat) (inp : GifMeta) : OptimizeResult :=
  if inp.size > 15 * 1048576 then
    match enc inp (some (scaledWidth inp)) with
    | some outSize => ⟨outSize, min (scaledWidth inp) inp.width, inp.size, false⟩
    | none => ⟨inp.size, inp.width, inp.size, true⟩
  else if inp.size > 8 * 1048576 then
    match enc inp none with
    | some outSize => ⟨outSize, inp.width, inp.size, false⟩
    | none => ⟨inp.size, inp.width, inp.size, true⟩
  else
    ⟨inp.size, inp.width, inp.size, false⟩

/-- Claim C8 counterexample: a 20 MB GIF for which the sharp re-encode
throws is returned unchanged — 20 MB of output with a warning flag, not
"output of at most 15MB". -/
theorem claim_c8_counterexample :
    (optimizeGif (fun _ _ => none) ⟨20 * 1048576, 480⟩).optimizedSize = 20 * 1048576 ∧
    20 * 1048576 > 15 * 1048576 ∧
    (optimizeGif (fun _ _ => none) ⟨20 * 1048576, 480⟩).warning = true := by
  exact ⟨by decide, by decide, by decide⟩

/-- Claim C8 (amended): for input over the 15 MB limit the handler
computes the scale factor `sqrt(targetBytes / currentBytes)` with
targetBytes = 14 MB, requests a proportional resize that never enlarges
(the requested width is at most the original width, and the output width
is capped at the original); the output byte size is not enforced — it is
whatever the re-encode produces, and when the encoder fails the original
oversize bytes are returned with `success: true` and a warning instead of
an error. -/
theorem claim_c8_resize (enc : GifMeta → Option Nat → Option Nat) (inp : GifMeta)
    (hbig : inp.size > 15 * 1048576) :
    scaledWidth inp ≤ inp.width ∧
    (optimizeGif enc inp).outputWidth ≤ inp.width ∧
    (∀ outSize, enc inp (some (scaledWidth inp)) = some outSize →
      (optimizeGif enc inp).optimizedSize = outSize ∧
      (optimizeGif enc inp).outputWidth = min (scaledWidth inp) inp.width) ∧
    (enc inp (some (scaledWidth inp)) = none →
      (optimizeGif enc inp).optimizedSize = inp.size ∧
      (optimizeGif enc inp).warning = true) := by
  have hscaled : scaledWidth inp ≤ inp.width := by
    unfold scaledWidth
    have hdiv : inp.width * inp.width * (14 * 1048576) / inp.size ≤ inp.width * inp.width := by
      apply Nat.div_le_of_le_mul
      rw [Nat.mul_comm inp.size (inp.width * inp.width)]
      apply Nat.mul_le_mul_left
      omega
    calc Nat.sqrt (inp.width * inp.width * (14 * 1048576) / inp.size)
        ≤ Nat.sqrt (inp.width * inp.width) := Nat.sqrt_le_sqrt hdiv
      _ = inp.width := by rw [← Nat.pow_two]; exact Nat.sqrt_eq' inp.width
  refine ⟨hscaled, ?_, ?_, ?_⟩
  · unfold optimizeGif
    rw [if_pos hbig]
    cases henc : enc inp (some (scaledWidth inp)) with
    | some outSize => simp only []; exact Nat.min_le_right _ _
    | none => exact Nat.le_refl _
  · intro outSize henc
    unfold optimizeGif
    rw [if_pos hbig, henc]
    exact ⟨rfl, rfl⟩
  · intro henc
    unfold optimizeGif
    rw [if_pos hbig, henc]
    exact ⟨rfl, rfl⟩

theorem claim_c8_witness :
    (optimizeGif (fun _ _ => some (14 * 1048576)) ⟨20 * 1048576, 480⟩).outputWidth ≤ 480 := by
  exact (claim_c8_resize (fun _ _ => some (14 * 1048576)) ⟨20 * 1048576, 480⟩
    (by decide)).2.1

/-! ## `handleCopyToClipboard` (result-display component)

The environment records the outcome of each awaited step: the
`/api/optimize-gif` round trip (error = fetch rejection, non-ok response,
or JSON failure; success = the returned `format` field), whether
`navigator.clipboard && window.ClipboardItem` is available, and whether
each clipboard write resolves.  Any rejection inside the `try` lands in
the `catch`, which attempts `writeText(gifUrl)` once more. -/

structure ClipboardEnv where
  optimizeResult : Except String String
  hasClipboardItemAPI : Bool
  mediaWriteOk : Bool
  textWriteTryOk : Bool
  textWriteCatchOk : Bool
deriving Repr

/-- Observable result of `handleCopyToClipboard`: the media blob was
copied (with its MIME type), the plain URL was copied as text, or the
final failure alert was shown. -/
inductive CopyOutcome where
  | copiedMedia (mime : String)
  | copiedUrlText (url : String)
  | failureAlert
deriving Repr, DecidableEq

/-- The `catch` block: try `navigator.clipboard.writeText(gifUrl)`; if
even that throws, alert the failure. -/
def copyCatchFallback (env : ClipboardEnv) (gifUrl : String) : CopyOutcome :=
  if env.textWriteCatchOk then CopyOutcome.copiedUrlText gifUrl
  else CopyOutcome.failureAlert

/-- `handleCopyToClipboard(gifUrl)`: optimize, build the blob
(`video/mp4` when `format === 'mp4'`, else `image/gif`), write it as a
`ClipboardItem` when the API exists, otherwise write the URL as text;
every rejection inside the `try` falls to `copyCatchFallback`. -/
def handleCopyToClipboard (env : ClipboardEnv) (gifUrl : String) : CopyOutcome :=
  match env.optimizeResult with
  | Except.error _ => copyCatchFallback env gifUrl
  | Except.ok fmt =>
      if env.hasClipboardItemAPI then
        if env.mediaWriteOk then
          CopyOutcome.copiedMedia (if fmt = "mp4" then "video/mp4" else "image/gif")
        else copyCatchFallback env gifUrl
      else
        if env.textWriteTryOk then CopyOutcome.copiedUrlText gifUrl
        else copyCatchFallback env gifUrl

/-- Claim C9: the primary attempt writes the transcoded media to the
clipboard as `video/mp4` or `image/gif` matching the returned format; and
whenever the primary attempt fails (optimize round trip rejected, media
write rejected) or the `ClipboardItem` API is unavailable, the operation
falls back to copying the plain URL as text — provided that text write
itself succeeds, the caller sees the URL copied, not an error. -/
theorem claim_c9_clipboard_fallback (env : ClipboardEnv) (gifUrl : String) :
    (∀ fmt, env.optimizeResult = Except.ok fmt → env.hasClipboardItemAPI = true →
      env.mediaWriteOk = true →
      handleCopyToClipboard env gifUrl =
        CopyOutcome.copiedMedia (if fmt = "mp4" then "video/mp4" else "image/gif")) ∧
    (∀ fmt, env.optimizeResult = Except.ok fmt → env.hasClipboardItemAPI = true →
      env.mediaWriteOk = true →
      handleCopyToClipboard env gifUrl = CopyOutcome.copiedMedia "video/mp4" ∨
      handleCopyToClipboard env gifUrl = CopyOutcome.copiedMedia "image/gif") ∧
    (∀ e, env.optimizeResult = Except.error e → env.textWriteCatchOk = true →
      handleCopyToClipboard env gifUrl = CopyOutcome.copiedUrlText gifUrl) ∧
    (∀ fmt, env.optimizeResult = Except.ok fmt → env.hasClipboardItemAPI = true →
      env.mediaWriteOk = false → env.textWriteCatchOk = true →
      handleCopyToClipboard env gifUrl = CopyOutcome.copiedUrlText gifUrl) ∧
    (∀ fmt, env.optimizeResult = Except.ok fmt → env.hasClipboardItemAPI = false →
      env.textWriteTryOk = true →
      handleCopyToClipboard env gifUrl = CopyOutcome.copiedUrlText gifUrl) := by
  refine ⟨?_, ?_, ?_, ?_, ?_⟩
  · intro fmt hopt hapi hw
    unfold handleCopyToClipboard
    rw [hopt]
    simp [hapi, hw]
  · intro fmt hopt hapi hw
    unfold handleCopyToClipboard
    rw [hopt]
    simp only [hapi, hw, if_true]
    by_cases hfmt : fmt = "mp4"
    · exact Or.inl (by simp [hfmt])
    · exact Or.inr (by simp [hfmt])
  · intro e hopt hcatch
    unfold handleCopyToClipboard
    rw [hopt]
    unfold copyCatchFallback
    simp [hcatch]
  · intro fmt hopt hapi hw hcatch
    unfold handleCopyToClipboard
    rw [hopt]
    unfold copyCatchFallback
    simp [hapi, hw, hcatch]
  · intro fmt hopt hapi htry
    unfold handleCopyToClipboard
    rw [hopt]
    simp [hapi, htry]

theorem claim_c9_witness :
    handleCopyToClipboard
      { optimizeResult := Except.error "Failed to optimize GIF",
        hasClipboardItemAPI := true, mediaWriteOk := true,
        textWriteTryOk := true, textWriteCatchOk := true } "http://r.gif"
      = CopyOutcome.copiedUrlText "http://r.gif" := by
  exact (claim_c9_clipboard_fallback
    { optimizeResult := Except.error "Failed to optimize GIF",
      hasClipboardItemAPI := true, mediaWriteOk := true,
      textWriteTryOk := true, textWriteCatchOk := true } "http://r.gif").2.2.1
    "Failed to optimize GIF" rfl rfl
